import Mathlib

/-!
Shallow embedding of `atom/browser/ui/autofill_popup.cc`: the placement
arithmetic of the autofill suggestion popup (horizontal and vertical
placement, desired popup size, row geometry, suggestion-list access).

Machine `int` values are modelled as `Int` (the geometry arithmetic here
never relies on wrap-around). External collaborators are modelled as data
or function parameters:
  * `display::Display` exposes only `bounds().x()`, `bounds().y()`,
    `GetSizeInPixel().width()` and `GetSizeInPixel().height()` to this
    file, so it is a record of those four integers;
  * `gfx::GetStringWidth(text, fontList)` becomes a function parameter
    (one for the value font, one for the label font, since the popup
    always uses the bold list for values and the smaller list for labels);
  * `views::View::ConvertPointToScreen` becomes a `Point → Point`
    parameter and `GetDisplayNearestPoint` a `Point → Display` parameter.
`std::vector<base::string16>::at` throws `std::out_of_range` on a bad
index; that fallible access is embedded in `Except Unit`.
-/

/-- A screen point (`gfx::Point`). -/
structure Point where
  x : Int
  y : Int
deriving DecidableEq

/-- A rectangle (`gfx::Rect`): origin plus size. -/
structure Rect where
  x : Int
  y : Int
  width : Int
  height : Int
deriving DecidableEq

/-- `gfx::Rect::right()` is `x() + width()`. -/
def Rect.right (r : Rect) : Int := r.x + r.width

/-- `gfx::Rect::bottom()` is `y() + height()`. -/
def Rect.bottom (r : Rect) : Int := r.y + r.height

/-- `gfx::Rect::origin()`. -/
def Rect.origin (r : Rect) : Point := ⟨r.x, r.y⟩

/-- The slice of `display::Display` this file reads: the origin of
`bounds()` and the size of `GetSizeInPixel()`. -/
structure Display where
  boundsX : Int
  boundsY : Int
  pixelWidth : Int
  pixelHeight : Int
deriving DecidableEq

/-- Modelled from the spec: the layout constants declared in
`autofill_popup.h`, which is not among the sources (only the `.cc` file
is). The spec describes them as the popup border thickness, the fixed
per-row height, and the row paddings, without fixing numeric values, so
they are kept abstract as a record of integers. -/
structure LayoutConsts where
  kPopupBorderThickness : Int
  kRowHeight : Int
  kEndPadding : Int
  kNamePadding : Int
deriving DecidableEq

/-- The state of `AutofillPopup` that the placement logic reads and
writes: the two suggestion vectors, the anchor element bounds, and the
computed popup bounds. -/
structure AutofillPopup where
  values : List String
  labels : List String
  elementBounds : Rect
  popupBounds : Rect
deriving DecidableEq

/-- `leftmost_display_x` in `CalculatePopupXAndWidth`. -/
def leftmostDisplayX (left_display : Display) : Int := left_display.boundsX

/-- `rightmost_display_x` in `CalculatePopupXAndWidth`. -/
def rightmostDisplayX (right_display : Display) : Int :=
  right_display.pixelWidth + right_display.boundsX

/-- `right_growth_start`: the popup start if growing right, capped to
screen space. -/
def rightGrowthStart (ld rd : Display) (element_bounds : Rect) : Int :=
  max (leftmostDisplayX ld) (min (rightmostDisplayX rd) element_bounds.x)

/-- `left_growth_end`: the popup end if growing left, capped to screen
space. -/
def leftGrowthEnd (ld rd : Display) (element_bounds : Rect) : Int :=
  max (leftmostDisplayX ld) (min (rightmostDisplayX rd) element_bounds.right)

/-- `right_available` in `CalculatePopupXAndWidth`. -/
def rightAvailable (ld rd : Display) (element_bounds : Rect) : Int :=
  rightmostDisplayX rd - rightGrowthStart ld rd element_bounds

/-- `left_available` in `CalculatePopupXAndWidth`. -/
def leftAvailable (ld rd : Display) (element_bounds : Rect) : Int :=
  leftGrowthEnd ld rd element_bounds - leftmostDisplayX ld

/-- `popup_width`: the requested width capped by the larger available
side. -/
def popupWidth (ld rd : Display) (popup_required_width : Int)
    (element_bounds : Rect) : Int :=
  min popup_required_width
    (max (rightAvailable ld rd element_bounds)
      (leftAvailable ld rd element_bounds))

/-- `CalculatePopupXAndWidth`: choose horizontal placement, preferring to
grow towards the end (right for LTR, left for RTL), reversing when the
preferred side is short on space. -/
def CalculatePopupXAndWidth (ld rd : Display) (popup_required_width : Int)
    (element_bounds : Rect) (is_rtl : Bool) : Int × Int :=
  let pw := popupWidth ld rd popup_required_width element_bounds
  let grow_right : Int × Int := (rightGrowthStart ld rd element_bounds, pw)
  let grow_left : Int × Int := (leftGrowthEnd ld rd element_bounds - pw, pw)
  if is_rtl then
    if leftAvailable ld rd element_bounds ≥ pw ∨
        leftAvailable ld rd element_bounds ≥ rightAvailable ld rd element_bounds
    then grow_left else grow_right
  else
    if rightAvailable ld rd element_bounds ≥ pw ∨
        rightAvailable ld rd element_bounds ≥ leftAvailable ld rd element_bounds
    then grow_right else grow_left

/-- `topmost_display_y` in `CalculatePopupYAndHeight`. -/
def topmostDisplayY (top_display : Display) : Int := top_display.boundsY

/-- `bottommost_display_y` in `CalculatePopupYAndHeight`. -/
def bottommostDisplayY (bottom_display : Display) : Int :=
  bottom_display.pixelHeight + bottom_display.boundsY

/-- `top_growth_end`: the popup end if growing up, capped to screen
space. -/
def topGrowthEnd (td bd : Display) (element_bounds : Rect) : Int :=
  max (topmostDisplayY td) (min (bottommostDisplayY bd) element_bounds.y)

/-- `bottom_growth_start`: the popup start if growing down, capped to
screen space. -/
def bottomGrowthStart (td bd : Display) (element_bounds : Rect) : Int :=
  max (topmostDisplayY td) (min (bottommostDisplayY bd) element_bounds.bottom)

/-- `top_available` in `CalculatePopupYAndHeight`. -/
def topAvailable (td bd : Display) (element_bounds : Rect) : Int :=
  bottomGrowthStart td bd element_bounds - topmostDisplayY td

/-- `bottom_available` in `CalculatePopupYAndHeight`. -/
def bottomAvailable (td bd : Display) (element_bounds : Rect) : Int :=
  bottommostDisplayY bd - topGrowthEnd td bd element_bounds

/-- `CalculatePopupYAndHeight`: place below the field when the space
below suffices or at least matches the space above, otherwise above; the
height is passed through unchanged in both branches. -/
def CalculatePopupYAndHeight (td bd : Display) (popup_required_height : Int)
    (element_bounds : Rect) : Int × Int :=
  if bottomAvailable td bd element_bounds ≥ popup_required_height ∨
      bottomAvailable td bd element_bounds ≥ topAvailable td bd element_bounds
  then (bottomGrowthStart td bd element_bounds, popup_required_height)
  else (topGrowthEnd td bd element_bounds - popup_required_height,
    popup_required_height)

/-- `AutofillPopup::GetDesiredPopupHeight`: border padding on both ends
plus one fixed row height per suggestion. -/
def GetDesiredPopupHeight (c : LayoutConsts) (p : AutofillPopup) : Int :=
  2 * c.kPopupBorderThickness + (p.values.length : Int) * c.kRowHeight

/-- `AutofillPopup::GetValueAt`: `values_.at(i)`, which throws
`std::out_of_range` exactly when the (int) index is outside the vector;
a negative `int` converts to a huge `size_t`, hence is also out of
range. -/
def GetValueAt (p : AutofillPopup) (i : Int) : Except Unit String :=
  if h : 0 ≤ i ∧ i < (p.values.length : Int) then
    .ok (p.values.get ⟨i.toNat, by omega⟩)
  else .error ()

/-- `AutofillPopup::GetLabelAt`: `labels_.at(i)`, same checked access on
the label vector. -/
def GetLabelAt (p : AutofillPopup) (i : Int) : Except Unit String :=
  if h : 0 ≤ i ∧ i < (p.labels.length : Int) then
    .ok (p.labels.get ⟨i.toNat, by omega⟩)
  else .error ()

/-- `row_size` for one iteration of the `GetDesiredPopupWidth` loop:
end padding, border on both sides, the measured value and label widths,
plus name-and-end padding when the label is non-empty. `mv`/`ml` are
`gfx::GetStringWidth` under the value (bold) and label (smaller) font
lists. -/
def rowSize (c : LayoutConsts) (mv ml : String → Int) (p : AutofillPopup)
    (i : Int) : Except Unit Int := do
  let v ← GetValueAt p i
  let l ← GetLabelAt p i
  let base := c.kEndPadding + 2 * c.kPopupBorderThickness + mv v + ml l
  pure (if l.length > 0 then base + (c.kNamePadding + c.kEndPadding) else base)

/-- The loop of `GetDesiredPopupWidth`: fold `max` of the row sizes over
indices `i, i+1, …` for `n` more iterations, starting from the
accumulated width `acc`. -/
def desiredWidthLoop (c : LayoutConsts) (mv ml : String → Int)
    (p : AutofillPopup) : Nat → Nat → Int → Except Unit Int
  | 0, _, acc => .ok acc
  | n + 1, i, acc => do
    let r ← rowSize c mv ml p (i : Int)
    desiredWidthLoop c mv ml p n (i + 1) (max acc r)

/-- `AutofillPopup::GetDesiredPopupWidth`: the anchor element's width,
grown to the widest suggestion row. -/
def GetDesiredPopupWidth (c : LayoutConsts) (mv ml : String → Int)
    (p : AutofillPopup) : Except Unit Int :=
  desiredWidthLoop c mv ml p p.values.length 0 p.elementBounds.width

/-- `AutofillPopup::GetRowBounds`: the row's rectangle in popup-local
coordinates. -/
def GetRowBounds (c : LayoutConsts) (p : AutofillPopup) (index : Int) : Rect :=
  let top := c.kPopupBorderThickness + index * c.kRowHeight
  ⟨c.kPopupBorderThickness, top,
    p.popupBounds.width - 2 * c.kPopupBorderThickness, c.kRowHeight⟩

/-- The loop of `AutofillPopup::LineFromY`: `n` more iterations remain,
`i` is the current index, `cur` the accumulated `current_height`; when
no iteration returns, the fallback `values_.size() - 1` is returned. -/
def lineFromYLoop (kRow y fallback : Int) : Nat → Nat → Int → Int
  | 0, _, _ => fallback
  | n + 1, i, cur =>
    if y ≤ cur + kRow then (i : Int)
    else lineFromYLoop kRow y fallback n (i + 1) (cur + kRow)

/-- `AutofillPopup::LineFromY`: linear scan accumulating `kRowHeight`
from `kPopupBorderThickness`, returning the first index whose
accumulated height reaches `y`, else `values_.size() - 1`. -/
def LineFromY (c : LayoutConsts) (p : AutofillPopup) (y : Int) : Int :=
  lineFromYLoop c.kRowHeight y ((p.values.length : Int) - 1)
    p.values.length 0 c.kPopupBorderThickness

/-- Modelled from the spec (refinement reference for `LineFromY`): the
index of the first row, among `n` rows starting at index `i`, whose
accumulated bottom edge `border + (index+1)·rowHeight` is at or below
`y`, spec wording "the first row whose accumulated bottom edge is ≥ y". -/
def firstRowReaching (c : LayoutConsts) (y : Int) : Nat → Nat → Option Nat
  | 0, _ => none
  | n + 1, i =>
    if y ≤ c.kPopupBorderThickness + ((i : Int) + 1) * c.kRowHeight then some i
    else firstRowReaching c y n (i + 1)

/-- Modelled from the spec (refinement reference for `LineFromY`): "the
first row whose accumulated bottom edge is ≥ y; if y exceeds all rows,
returns the last valid index (clamped, not an error)". -/
def lineFromYSpec (c : LayoutConsts) (p : AutofillPopup) (y : Int) : Int :=
  match firstRowReaching c y p.values.length 0 with
  | some i => (i : Int)
  | none => (p.values.length : Int) - 1

/-- `origin` in `UpdatePopupBounds`: the anchor element's origin
converted from parent-view coordinates to screen coordinates. -/
def screenOrigin (toScreen : Point → Point) (p : AutofillPopup) : Point :=
  toScreen p.elementBounds.origin

/-- `bounds` in `UpdatePopupBounds`: the anchor element's rectangle in
screen coordinates. -/
def screenBounds (toScreen : Point → Point) (p : AutofillPopup) : Rect :=
  ⟨(screenOrigin toScreen p).x, (screenOrigin toScreen p).y,
    p.elementBounds.width, p.elementBounds.height⟩

/-- `top_left_corner_of_popup`: the popup's top-left corner if placed
above the element and shrunk leftward. -/
def topLeftCornerOfPopup (toScreen : Point → Point) (p : AutofillPopup)
    (desired_width desired_height : Int) : Point :=
  ⟨(screenOrigin toScreen p).x + (p.elementBounds.width - desired_width),
    (screenOrigin toScreen p).y + (- desired_height)⟩

/-- `bottom_right_corner_of_popup`: the popup's bottom-right corner if
placed below the element and grown rightward. -/
def bottomRightCornerOfPopup (toScreen : Point → Point) (p : AutofillPopup)
    (desired_width desired_height : Int) : Point :=
  ⟨(screenOrigin toScreen p).x + desired_width,
    (screenOrigin toScreen p).y + (p.elementBounds.height + desired_height)⟩

/-- `AutofillPopup::UpdatePopupBounds`: recompute the desired popup size,
look up the displays nearest the popup's extreme corners, compute the
horizontal placement with `is_rtl = false` and the vertical placement,
and store the resulting rectangle in `popup_bounds_`. `nearest` is the
screen's `GetDisplayNearestPoint`. -/
def UpdatePopupBounds (c : LayoutConsts) (toScreen : Point → Point)
    (nearest : Point → Display) (mv ml : String → Int)
    (p : AutofillPopup) : Except Unit AutofillPopup := do
  let bounds := screenBounds toScreen p
  let desired_width ← GetDesiredPopupWidth c mv ml p
  let desired_height := GetDesiredPopupHeight c p
  let is_rtl := false
  let top_left_display :=
    nearest (topLeftCornerOfPopup toScreen p desired_width desired_height)
  let bottom_right_display :=
    nearest (bottomRightCornerOfPopup toScreen p desired_width desired_height)
  let popup_x_and_width := CalculatePopupXAndWidth top_left_display
    bottom_right_display desired_width bounds is_rtl
  let popup_y_and_height := CalculatePopupYAndHeight top_left_display
    bottom_right_display desired_height bounds
  pure { p with popupBounds := ⟨popup_x_and_width.1, popup_y_and_height.1,
    popup_x_and_width.2, popup_y_and_height.2⟩ }

/-- Helper: the LTR branch test of the source, `right_available >=
popup_width || right_available >= left_available`, is equivalent to the
same test with the requested width in place of the capped width. -/
lemma ltrCondition_iff (ld rd : Display) (w : Int) (eb : Rect) :
    (rightAvailable ld rd eb ≥ popupWidth ld rd w eb ∨
      rightAvailable ld rd eb ≥ leftAvailable ld rd eb) ↔
    (rightAvailable ld rd eb ≥ w ∨
      rightAvailable ld rd eb ≥ leftAvailable ld rd eb) := by
  unfold popupWidth
  omega

/-- Helper: the RTL branch test, mirrored. -/
lemma rtlCondition_iff (ld rd : Display) (w : Int) (eb : Rect) :
    (leftAvailable ld rd eb ≥ popupWidth ld rd w eb ∨
      leftAvailable ld rd eb ≥ rightAvailable ld rd eb) ↔
    (leftAvailable ld rd eb ≥ w ∨
      leftAvailable ld rd eb ≥ rightAvailable ld rd eb) := by
  unfold popupWidth
  omega

/-- Helper: in LTR mode the result is the grow-right pair exactly under
the requested-width condition, else the grow-left pair. -/
lemma calcX_ltr_eq (ld rd : Display) (w : Int) (eb : Rect) :
    CalculatePopupXAndWidth ld rd w eb false =
      if rightAvailable ld rd eb ≥ w ∨
          rightAvailable ld rd eb ≥ leftAvailable ld rd eb
      then (rightGrowthStart ld rd eb, popupWidth ld rd w eb)
      else (leftGrowthEnd ld rd eb - popupWidth ld rd w eb,
        popupWidth ld rd w eb) := by
  simp only [CalculatePopupXAndWidth, Bool.false_eq_true, if_false]
  exact if_congr (ltrCondition_iff ld rd w eb) rfl rfl

/-- Helper: in RTL mode the result is the grow-left pair exactly under
the mirrored requested-width condition, else the grow-right pair. -/
lemma calcX_rtl_eq (ld rd : Display) (w : Int) (eb : Rect) :
    CalculatePopupXAndWidth ld rd w eb true =
      if leftAvailable ld rd eb ≥ w ∨
          leftAvailable ld rd eb ≥ rightAvailable ld rd eb
      then (leftGrowthEnd ld rd eb - popupWidth ld rd w eb,
        popupWidth ld rd w eb)
      else (rightGrowthStart ld rd eb, popupWidth ld rd w eb) := by
  simp only [CalculatePopupXAndWidth, if_true]
  exact if_congr (rtlCondition_iff ld rd w eb) rfl rfl

/-- Claim C1: for an anchor rectangle contained in a single display (both
display arguments being that display) and a non-negative desired width,
`CalculatePopupXAndWidth` returns a width at most the desired width and
an interval `[x, x + width]` inside the display's horizontal bounds
`[boundsX, boundsX + pixelWidth]`. -/
theorem calcX_within_single_display (d : Display) (w : Int) (eb : Rect)
    (rtl : Bool) (_hw : 0 ≤ w) (hbw : 0 ≤ eb.width)
    (hl : d.boundsX ≤ eb.x) (hr : eb.right ≤ d.boundsX + d.pixelWidth) :
    (CalculatePopupXAndWidth d d w eb rtl).2 ≤ w ∧
    d.boundsX ≤ (CalculatePopupXAndWidth d d w eb rtl).1 ∧
    (CalculatePopupXAndWidth d d w eb rtl).1 +
        (CalculatePopupXAndWidth d d w eb rtl).2 ≤
      d.boundsX + d.pixelWidth := by
  unfold Rect.right at hr
  cases rtl <;>
    simp only [CalculatePopupXAndWidth, popupWidth, rightAvailable,
      leftAvailable, rightGrowthStart, leftGrowthEnd, rightmostDisplayX,
      leftmostDisplayX, Rect.right, Bool.false_eq_true, if_false,
      if_true] <;>
    split_ifs <;> omega

/-- Witness for C1 at a concrete display, anchor and width. -/
theorem calcX_within_single_display_witness :
    (CalculatePopupXAndWidth ⟨0, 0, 1000, 1000⟩ ⟨0, 0, 1000, 1000⟩ 200
      ⟨100, 100, 50, 20⟩ false).2 ≤ 200 ∧
    (0 : Int) ≤ (CalculatePopupXAndWidth ⟨0, 0, 1000, 1000⟩
      ⟨0, 0, 1000, 1000⟩ 200 ⟨100, 100, 50, 20⟩ false).1 ∧
    (CalculatePopupXAndWidth ⟨0, 0, 1000, 1000⟩ ⟨0, 0, 1000, 1000⟩ 200
      ⟨100, 100, 50, 20⟩ false).1 +
      (CalculatePopupXAndWidth ⟨0, 0, 1000, 1000⟩ ⟨0, 0, 1000, 1000⟩ 200
        ⟨100, 100, 50, 20⟩ false).2 ≤ (0 : Int) + 1000 :=
  calcX_within_single_display ⟨0, 0, 1000, 1000⟩ 200 ⟨100, 100, 50, 20⟩
    false (by decide) (by decide) (by decide) (by decide)

/-- Claim C2: in LTR mode the grow-right pair (starting at the clamped
anchor left edge) is returned exactly when right-side available space
reaches the desired width or at least matches left-side available space,
else the grow-left pair (ending at the clamped anchor right edge); in
RTL mode the choice is mirrored. -/
theorem calcX_direction_choice (ld rd : Display) (w : Int) (eb : Rect) :
    (CalculatePopupXAndWidth ld rd w eb false =
      if rightAvailable ld rd eb ≥ w ∨
          rightAvailable ld rd eb ≥ leftAvailable ld rd eb
      then (rightGrowthStart ld rd eb, popupWidth ld rd w eb)
      else (leftGrowthEnd ld rd eb - popupWidth ld rd w eb,
        popupWidth ld rd w eb)) ∧
    (CalculatePopupXAndWidth ld rd w eb true =
      if leftAvailable ld rd eb ≥ w ∨
          leftAvailable ld rd eb ≥ rightAvailable ld rd eb
      then (leftGrowthEnd ld rd eb - popupWidth ld rd w eb,
        popupWidth ld rd w eb)
      else (rightGrowthStart ld rd eb, popupWidth ld rd w eb)) :=
  ⟨calcX_ltr_eq ld rd w eb, calcX_rtl_eq ld rd w eb⟩

/-- Claim C3: the below-the-anchor placement, at the clamped anchor
bottom edge, is chosen exactly when bottom-available space reaches the
desired height or at least matches top-available space; otherwise the
placement ends at the clamped anchor top edge. -/
theorem calcY_below_iff (td bd : Display) (h : Int) (eb : Rect) :
    CalculatePopupYAndHeight td bd h eb =
      if bottomAvailable td bd eb ≥ h ∨
          bottomAvailable td bd eb ≥ topAvailable td bd eb
      then (bottomGrowthStart td bd eb, h)
      else (topGrowthEnd td bd eb - h, h) := rfl

/-- Claim C4: `CalculatePopupYAndHeight` returns exactly the desired
height in both branches; the height is never shrunk to the available
vertical space. -/
theorem calcY_height_never_shrunk (td bd : Display) (h : Int) (eb : Rect) :
    (CalculatePopupYAndHeight td bd h eb).2 = h := by
  unfold CalculatePopupYAndHeight
  split_ifs <;> rfl

/-- Claim C5: with desired width 200, 180 pixels available leftward and
90 rightward, the LTR placement is the grow-left pair and the final
width is exactly 180. -/
theorem calcX_scenario_grow_left_180 :
    rightAvailable ⟨-30, 0, 1000, 1000⟩ ⟨100, 0, 90, 90⟩
        ⟨100, 100, 50, 20⟩ = 90 ∧
    leftAvailable ⟨-30, 0, 1000, 1000⟩ ⟨100, 0, 90, 90⟩
        ⟨100, 100, 50, 20⟩ = 180 ∧
    popupWidth ⟨-30, 0, 1000, 1000⟩ ⟨100, 0, 90, 90⟩ 200
        ⟨100, 100, 50, 20⟩ = 180 ∧
    CalculatePopupXAndWidth ⟨-30, 0, 1000, 1000⟩ ⟨100, 0, 90, 90⟩ 200
        ⟨100, 100, 50, 20⟩ false =
      (leftGrowthEnd ⟨-30, 0, 1000, 1000⟩ ⟨100, 0, 90, 90⟩
          ⟨100, 100, 50, 20⟩ -
        popupWidth ⟨-30, 0, 1000, 1000⟩ ⟨100, 0, 90, 90⟩ 200
          ⟨100, 100, 50, 20⟩,
        popupWidth ⟨-30, 0, 1000, 1000⟩ ⟨100, 0, 90, 90⟩ 200
          ⟨100, 100, 50, 20⟩) ∧
    (CalculatePopupXAndWidth ⟨-30, 0, 1000, 1000⟩ ⟨100, 0, 90, 90⟩ 200
        ⟨100, 100, 50, 20⟩ false).2 = 180 := by
  decide

/-- Claim C6: the desired popup height is twice the border thickness plus
row count times the fixed row height; with no suggestions the desired
height is twice the border thickness and the desired width is the anchor
element's own width. -/
theorem desiredPopupSize_formula :
    (∀ (c : LayoutConsts) (p : AutofillPopup),
      GetDesiredPopupHeight c p =
        2 * c.kPopupBorderThickness +
          (p.values.length : Int) * c.kRowHeight) ∧
    (∀ (c : LayoutConsts) (eb pb : Rect) (mv ml : String → Int),
      GetDesiredPopupHeight c ⟨[], [], eb, pb⟩ =
          2 * c.kPopupBorderThickness ∧
        GetDesiredPopupWidth c mv ml ⟨[], [], eb, pb⟩ =
          Except.ok eb.width) := by
  refine ⟨fun c p => rfl, fun c eb pb mv ml => ⟨?_, rfl⟩⟩
  simp [GetDesiredPopupHeight]

/-- Claim C7: the row rectangle has `x` the border thickness, `y` the
border thickness plus index times row height, width the popup width less
both borders, and the fixed row height; consecutive rows' `y` values
differ by exactly the row height. -/
theorem rowBounds_formula (c : LayoutConsts) (p : AutofillPopup) (i : Int) :
    GetRowBounds c p i =
      ⟨c.kPopupBorderThickness, c.kPopupBorderThickness + i * c.kRowHeight,
        p.popupBounds.width - 2 * c.kPopupBorderThickness, c.kRowHeight⟩ ∧
    (GetRowBounds c p (i + 1)).y - (GetRowBounds c p i).y = c.kRowHeight := by
  refine ⟨rfl, ?_⟩
  show c.kPopupBorderThickness + (i + 1) * c.kRowHeight -
      (c.kPopupBorderThickness + i * c.kRowHeight) = c.kRowHeight
  ring

/-- Helper: the `LineFromY` loop agrees with the first-row search, given
that the accumulated height is the border plus `i` row heights. -/
lemma lineFromYLoop_eq_firstRowReaching (c : LayoutConsts) (y fb : Int) :
    ∀ (n i : Nat) (cur : Int),
      cur = c.kPopupBorderThickness + (i : Int) * c.kRowHeight →
      lineFromYLoop c.kRowHeight y fb n i cur =
        (match firstRowReaching c y n i with
          | some j => (j : Int)
          | none => fb) := by
  intro n
  induction n with
  | zero => intro i cur hcur; rfl
  | succ n ih =>
    intro i cur hcur
    have hedge : cur + c.kRowHeight =
        c.kPopupBorderThickness + ((i : Int) + 1) * c.kRowHeight := by
      rw [hcur]; ring
    simp only [lineFromYLoop, firstRowReaching]
    by_cases hy : y ≤ cur + c.kRowHeight
    · rw [if_pos hy, if_pos (hedge ▸ hy)]
    · rw [if_neg hy, if_neg (hedge ▸ hy)]
      exact ih (i + 1) (cur + c.kRowHeight) (by rw [hedge]; push_cast; ring)

/-- Helper: when the row height is non-negative and `y` is strictly
beyond the bottom edge of all `n` remaining rows, no row is found. -/
lemma firstRowReaching_none (c : LayoutConsts) (y : Int)
    (hrh : 0 ≤ c.kRowHeight) :
    ∀ (n i : Nat),
      c.kPopupBorderThickness + ((i : Int) + (n : Int)) * c.kRowHeight < y →
      firstRowReaching c y n i = none := by
  intro n
  induction n with
  | zero => intro i h; rfl
  | succ n ih =>
    intro i h
    have hn : (0 : Int) ≤ (n : Int) := Int.natCast_nonneg n
    have hmul : ((i : Int) + 1) * c.kRowHeight ≤
        ((i : Int) + ((n : Int) + 1)) * c.kRowHeight := by
      apply mul_le_mul_of_nonneg_right _ hrh
      linarith
    have hlt : c.kPopupBorderThickness + ((i : Int) + 1) * c.kRowHeight < y := by
      push_cast at h
      linarith
    simp only [firstRowReaching]
    rw [if_neg (by omega), ih (i + 1) (by push_cast at h ⊢; linarith)]

/-- Claim C8: `LineFromY` equals the spec's description (the first row
whose accumulated bottom edge reaches `y`, else the last valid index
`rowCount - 1`); in particular, with at least one row and a non-negative
border-plus-row-height sum it maps `y = 0` to row 0, and with a
non-negative row height it maps any `y` beyond the last row's bottom
edge to `rowCount - 1`. -/
theorem lineFromY_matches_spec (c : LayoutConsts) (p : AutofillPopup)
    (y : Int) :
    LineFromY c p y = lineFromYSpec c p y ∧
    (0 ≤ c.kPopupBorderThickness + c.kRowHeight → p.values.length ≠ 0 →
      LineFromY c p 0 = 0) ∧
    (0 ≤ c.kRowHeight →
      c.kPopupBorderThickness + (p.values.length : Int) * c.kRowHeight < y →
      LineFromY c p y = (p.values.length : Int) - 1) := by
  have hmain : ∀ z : Int, LineFromY c p z = lineFromYSpec c p z := by
    intro z
    unfold LineFromY lineFromYSpec
    exact lineFromYLoop_eq_firstRowReaching c z ((p.values.length : Int) - 1)
      p.values.length 0 c.kPopupBorderThickness (by push_cast; ring)
  refine ⟨hmain y, ?_, ?_⟩
  · intro hpos hne
    obtain ⟨m, hm⟩ := Nat.exists_eq_succ_of_ne_zero hne
    unfold LineFromY
    rw [hm]
    simp only [lineFromYLoop]
    rw [if_pos (by omega)]
    rfl
  · intro hrh hbig
    rw [hmain y]
    unfold lineFromYSpec
    rw [firstRowReaching_none c y hrh p.values.length 0
      (by push_cast; linarith)]

/-- Witness for C8 at two rows, border 1, row height 24: `y = 0` gives
row 0 and a huge `y` gives the last row, index 1. -/
theorem lineFromY_matches_spec_witness :
    LineFromY ⟨1, 24, 8, 15⟩
        ⟨["a", "b"], ["p", "q"], ⟨0, 0, 0, 0⟩, ⟨0, 0, 0, 0⟩⟩ 0 = 0 ∧
    LineFromY ⟨1, 24, 8, 15⟩
        ⟨["a", "b"], ["p", "q"], ⟨0, 0, 0, 0⟩, ⟨0, 0, 0, 0⟩⟩ 1000000 = 1 :=
  ⟨(lineFromY_matches_spec ⟨1, 24, 8, 15⟩
      ⟨["a", "b"], ["p", "q"], ⟨0, 0, 0, 0⟩, ⟨0, 0, 0, 0⟩⟩ 0).2.1
      (by decide) (by decide),
    (lineFromY_matches_spec ⟨1, 24, 8, 15⟩
      ⟨["a", "b"], ["p", "q"], ⟨0, 0, 0, 0⟩, ⟨0, 0, 0, 0⟩⟩ 1000000).2.2
      (by decide) (by decide)⟩

/-- Claim C9: suggestion-list access errors exactly on an index outside
the underlying vector, and returns the stored text for every valid
index. -/
theorem getValueAt_bounds (p : AutofillPopup) (i : Int) :
    (GetValueAt p i = Except.error () ↔
      ¬(0 ≤ i ∧ i < (p.values.length : Int))) ∧
    (GetLabelAt p i = Except.error () ↔
      ¬(0 ≤ i ∧ i < (p.labels.length : Int))) ∧
    (∀ (j : Nat) (hj : j < p.values.length),
      GetValueAt p (j : Int) = Except.ok (p.values.get ⟨j, hj⟩)) ∧
    (∀ (j : Nat) (hj : j < p.labels.length),
      GetLabelAt p (j : Int) = Except.ok (p.labels.get ⟨j, hj⟩)) := by
  refine ⟨?_, ?_, ?_, ?_⟩
  · unfold GetValueAt
    split_ifs with h <;> simp [h]
  · unfold GetLabelAt
    split_ifs with h <;> simp [h]
  · intro j hj
    unfold GetValueAt
    rw [dif_pos ⟨Int.natCast_nonneg j, by exact_mod_cast hj⟩]
    exact rfl
  · intro j hj
    unfold GetLabelAt
    rw [dif_pos ⟨Int.natCast_nonneg j, by exact_mod_cast hj⟩]
    exact rfl

/-- Witness for C9: the first value of a one-element list is returned
without error. -/
theorem getValueAt_bounds_witness :
    GetValueAt ⟨["a"], ["b"], ⟨0, 0, 0, 0⟩, ⟨0, 0, 0, 0⟩⟩ ((0 : Nat) : Int) =
      Except.ok ((["a"] : List String).get ⟨0, by decide⟩) :=
  (getValueAt_bounds ⟨["a"], ["b"], ⟨0, 0, 0, 0⟩, ⟨0, 0, 0, 0⟩⟩ 0).2.2.1 0
    (by decide)

/-- Claim C10: `UpdatePopupBounds` always computes the horizontal
placement with the RTL flag false: when the desired-width computation
succeeds, the stored popup bounds are exactly the LTR placement obtained
from the displays nearest the popup's extreme corners, and that
placement follows the LTR preference rule. -/
theorem updatePopupBounds_always_ltr (c : LayoutConsts)
    (toScreen : Point → Point) (nearest : Point → Display)
    (mv ml : String → Int) (p : AutofillPopup) (dw : Int)
    (hdw : GetDesiredPopupWidth c mv ml p = Except.ok dw) :
    (let dh := GetDesiredPopupHeight c p
    let tld := nearest (topLeftCornerOfPopup toScreen p dw dh)
    let brd := nearest (bottomRightCornerOfPopup toScreen p dw dh)
    let b := screenBounds toScreen p
    UpdatePopupBounds c toScreen nearest mv ml p =
      Except.ok { p with popupBounds :=
        ⟨(CalculatePopupXAndWidth tld brd dw b false).1,
          (CalculatePopupYAndHeight tld brd dh b).1,
          (CalculatePopupXAndWidth tld brd dw b false).2,
          (CalculatePopupYAndHeight tld brd dh b).2⟩ } ∧
    CalculatePopupXAndWidth tld brd dw b false =
      (if rightAvailable tld brd b ≥ dw ∨
          rightAvailable tld brd b ≥ leftAvailable tld brd b
      then (rightGrowthStart tld brd b, popupWidth tld brd dw b)
      else (leftGrowthEnd tld brd b - popupWidth tld brd dw b,
        popupWidth tld brd dw b))) := by
  refine ⟨?_, calcX_ltr_eq _ _ _ _⟩
  unfold UpdatePopupBounds
  rw [hdw]
  rfl

/-- Witness for C10: a concrete empty-suggestion popup on a single
1000×1000 display at the origin. -/
theorem updatePopupBounds_always_ltr_witness :
    UpdatePopupBounds ⟨1, 24, 8, 15⟩ (fun q => q)
        (fun _ => ⟨0, 0, 1000, 1000⟩) (fun _ => 0) (fun _ => 0)
        ⟨[], [], ⟨100, 100, 50, 20⟩, ⟨0, 0, 0, 0⟩⟩ =
      Except.ok ⟨[], [], ⟨100, 100, 50, 20⟩, ⟨100, 120, 50, 2⟩⟩ :=
  (updatePopupBounds_always_ltr ⟨1, 24, 8, 15⟩ (fun q => q)
    (fun _ => ⟨0, 0, 1000, 1000⟩) (fun _ => 0) (fun _ => 0)
    ⟨[], [], ⟨100, 100, 50, 20⟩, ⟨0, 0, 0, 0⟩⟩ 50 rfl).1
